import Mathlib

/-!
Verification of the request-routing and entity-to-datasource dispatch engine
of the Rawst configuration-driven REST API generator.

The definitions below are a shallow embedding of the Rust source:
  * string helpers model the `str` operations used by the source
    (`split('/')`, `to_lowercase`, `trim`, `trim_start_matches('/')`, ...);
  * `HashMap<String, V>` is modeled as an association list
    (`List (String × V)`) with first-match lookup and replace-on-insert;
  * `serde_json::Value` is the inductive `Value`;
  * fallible Rust code returning `Result<_, E>` becomes `Except E _`;
  * the generated CRUD endpoint handlers additionally return the list of
    datasource operations they performed (a ghost trace instrumenting the
    datasource call sites, used to state "operation X is never invoked").
-/

namespace Rawst

/-! ## Generic association-list model of HashMap -/

/-- Model of `HashMap::get` on a `HashMap<String, V>`: first entry whose key
matches. -/
def mapLookup {α : Type} (m : List (String × α)) (k : String) : Option α :=
  (m.find? (fun p => p.1 == k)).map Prod.snd

/-- Model of `HashMap::insert`: replace the value in place when the key is
present, append otherwise. -/
def mapInsert {α : Type} (m : List (String × α)) (k : String) (v : α) :
    List (String × α) :=
  if (m.find? (fun p => p.1 == k)).isSome then
    m.map (fun p => if p.1 == k then (k, v) else p)
  else m ++ [(k, v)]

/-! ## String helpers modeling the Rust `str` operations used by the source -/

/-- Helper for `splitChar`: accumulates the current segment (reversed). -/
def splitCharAux (c : Char) : List Char → List Char → List (List Char)
  | [], acc => [acc.reverse]
  | x :: xs, acc =>
    if x == c then acc.reverse :: splitCharAux c xs []
    else splitCharAux c xs (x :: acc)

/-- Model of Rust `str::split(c)`: splits on every occurrence of `c`,
keeping empty segments (as Rust does). -/
def splitChar (c : Char) (s : String) : List String :=
  (splitCharAux c s.data []).map String.mk

/-- Model of Rust `str::to_lowercase` (exact on ASCII, which is all the
routing layer compares). -/
def to_lowercase (s : String) : String :=
  String.mk (s.data.map Char.toLower)

/-- Model of Rust `str::trim` (strips leading and trailing whitespace). -/
def trimWhitespace (s : String) : String :=
  String.mk (((s.data.dropWhile Char.isWhitespace).reverse.dropWhile
      Char.isWhitespace).reverse)

/-- Model of `api_prefix.trim_start_matches('/').trim_end_matches('/')`:
strips every leading and trailing slash. -/
def trimSlashes (s : String) : String :=
  String.mk (((s.data.dropWhile (fun c => c == '/')).reverse.dropWhile
      (fun c => c == '/')).reverse)

/-- Model of `Vec<String>::join(sep)` / `[T].join(sep)`. -/
def joinSep (sep : String) : List String → String
  | [] => ""
  | [x] => x
  | x :: y :: xs => x ++ sep ++ joinSep sep (y :: xs)

/-- Model of Rust `str::contains(needle)` at the character-list level
(substring containment). -/
def listContainsSub {α : Type} [BEq α] (needle : List α) : List α → Bool
  | [] => needle.isEmpty
  | a :: rest => needle.isPrefixOf (a :: rest) || listContainsSub needle rest

/-! ## serde_json::Value -/

/-- Model of `serde_json::Value`. Numbers are collapsed to integers: no claim
computes with numeric payloads, they are only carried around, and floating
point is outside the embedding. An object is an association list, matching
the ordered-map behaviour the source relies on. -/
inductive Value where
  | null : Value
  | bool : Bool → Value
  | num : Int → Value
  | str : String → Value
  | arr : List Value → Value
  | obj : List (String × Value) → Value

/-! ## Error types -/

/-- Model of `RusterApiError` (src/error.rs). The `BadRequest` variant is
constructed by the create/update handlers and matched by the transport error
mapping even though the enum declaration in error.rs is stale and omits it;
the embedding includes it, following every use site. `DatabaseError` wraps
its message text (the source wraps an `sqlx::Error`) and `IoError` and
`SerializationError` likewise carry the underlying message. -/
inductive RusterApiError where
  | EndpointGenerationError : String → RusterApiError
  | ConfigError : String → RusterApiError
  | DatabaseError : String → RusterApiError
  | EntityNotFound : String → RusterApiError
  | SerializationError : String → RusterApiError
  | ValidationError : String → RusterApiError
  | AuthError : String → RusterApiError
  | IoError : String → RusterApiError
  | NotFound : String → RusterApiError
  | ServerError : String → RusterApiError
  | BadRequest : String → RusterApiError
deriving DecidableEq

/-- Model of `DataSourceError` (src/data/datasource/base.rs). -/
inductive DataSourceError where
  | ConnectionError : String → DataSourceError
  | QueryError : String → DataSourceError
  | NotFound : String → DataSourceError
  | ValidationError : String → DataSourceError
  | MappingError : String → DataSourceError
  | SerializationError : String → DataSourceError
deriving DecidableEq

/-! ## HTTP-level data model (src/api/adapters/api_adapter.rs) -/

/-- Model of `HttpMethod` (src/config/entity_config.rs). -/
inductive HttpMethod where
  | GET : HttpMethod
  | POST : HttpMethod
  | PUT : HttpMethod
  | PATCH : HttpMethod
  | DELETE : HttpMethod
deriving DecidableEq

/-- Model of the derived `Debug` rendering of `HttpMethod`, used by the
source to build endpoint keys via `format!("{:?}", method)`. -/
def HttpMethod.debugStr : HttpMethod → String
  | .GET => "GET"
  | .POST => "POST"
  | .PUT => "PUT"
  | .PATCH => "PATCH"
  | .DELETE => "DELETE"

/-- Model of `ApiRequest`. -/
structure ApiRequest where
  method : HttpMethod
  path : String
  params : List (String × String)
  headers : List (String × String)
  body : Option String

/-- Model of `ApiResponseBody<T>`. -/
inductive ApiResponseBody (T : Type) where
  | single : T → ApiResponseBody T
  | list : List T → ApiResponseBody T
  | json : T → ApiResponseBody T

/-- Model of `ApiResponse<T>`. -/
structure ApiResponse (T : Type) where
  status : Nat
  headers : List (String × String)
  body : Option (ApiResponseBody T)

/-- Model of `default_headers` (src/api/handlers/common/utils.rs). -/
def default_headers : List (String × String) :=
  [("Content-Type", "application/json")]

/-- Model of `handle_datasource_error` (src/api/handlers/common/utils.rs):
wraps the displayed backend error into `EndpointGenerationError`. -/
def handle_datasource_error (err : String) : RusterApiError :=
  RusterApiError.EndpointGenerationError ("Error retrieving items: " ++ err)

/-! ## Rocket Status (transport library constants used by catch_all.rs) -/

/-- The `rocket::http::Status` constants the source uses, with their
standard HTTP codes. -/
inductive Status where
  | NotFound : Status
  | BadRequest : Status
  | InternalServerError : Status
  | GatewayTimeout : Status
deriving DecidableEq

/-- Numeric code of a `rocket::http::Status`. -/
def Status.code : Status → Nat
  | .NotFound => 404
  | .BadRequest => 400
  | .InternalServerError => 500
  | .GatewayTimeout => 504

/-! ## Entity configuration (src/config/entity_config.rs) -/

/-- Model of `DataType`. -/
inductive DataType where
  | String : DataType
  | Integer : DataType
  | Float : DataType
  | Boolean : DataType
  | Date : DataType
  | DateTime : DataType
  | Binary : DataType
  | JSON : DataType
deriving DecidableEq

/-- Model of `Field`. -/
structure Field where
  name : String
  column_name : Option String
  data_type : DataType
  required : Bool
  unique : Bool
  searchable : Bool
  default_value : Option String
  description : Option String

/-- Model of `CustomRoute`. -/
structure CustomRoute where
  path : String
  method : HttpMethod
  handler : String

/-- Model of `EndpointConfig`. -/
structure EndpointConfig where
  generate_create : Bool
  generate_read : Bool
  generate_update : Bool
  generate_delete : Bool
  generate_list : Bool
  custom_routes : List CustomRoute

/-- Model of `Authorization`. Roles and permissions are carried as the pairs
of strings the source stores (name/description and action/subject). -/
structure Authorization where
  active : Bool
  roles : List (String × Option String)
  permissions : List (String × String)

/-- Model of `Entity`. Relationships, validations and pagination are never
read by the dispatch or mapping core; they are carried as opaque unit
placeholders so the record shape matches the source field-for-field. -/
structure Entity where
  name : String
  table_name : Option String
  fields : List Field
  relationships : List Unit
  endpoints : EndpointConfig
  authentication : Bool
  authorization : Authorization
  validations : List Unit
  pagination : Option Unit

/-! ## Relational mapping base (src/data/datasource/relational/base.rs) -/

/-- Model of `FieldMapping`. -/
structure FieldMapping where
  field_name : String
  column_name : String
  field_type : String
deriving DecidableEq

/-- Model of `TableMapping`. -/
structure TableMapping where
  table_name : String
  primary_key : String
  fields : List FieldMapping
deriving DecidableEq

/-- Model of `data_type_to_string`. -/
def data_type_to_string : DataType → String
  | DataType.String => "string"
  | DataType.Integer => "integer"
  | DataType.Float => "float"
  | DataType.Boolean => "boolean"
  | DataType.Date => "date"
  | DataType.DateTime => "datetime"
  | DataType.Binary => "binary"
  | DataType.JSON => "json"

/-- Model of `detect_primary_key`: the first field whose name is "id" OR
which is unique and required, defaulting to the literal "id". -/
def detect_primary_key (entity : Entity) : String :=
  (((entity.fields.find? (fun f => f.name == "id" || (f.unique && f.required))).map
      (fun f => f.name)).getD ("id"))

/-- Loop body of `create_table_mapping`: the accumulator is the pair of the
field-mapping vector built so far and the current primary-key candidate.
After pushing a field mapping, the primary key is set to that field's column
name exactly when the vector has length one (the source comment reads "Use
first field as primary key for now"). -/
def ctm_step (acc : List FieldMapping × String) (field : Field) :
    List FieldMapping × String :=
  let column_name := field.column_name.getD field.name
  let fields1 := acc.1 ++
    [FieldMapping.mk field.name column_name (data_type_to_string field.data_type)]
  let pk1 := if fields1.length == 1 then column_name else acc.2
  (fields1, pk1)

/-- Model of `create_table_mapping`. -/
def create_table_mapping (entity : Entity) : TableMapping :=
  let table_name := entity.table_name.getD entity.name
  let res := entity.fields.foldl ctm_step ([], "id")
  TableMapping.mk table_name res.2 res.1

/-- The primary-key inference rule as the specification states it: the first
field literally named "id"; else the first field that is both unique and
required; else the literal "id". Written from the words of the spec, to be
compared with the source functions. -/
def spec_primary_key (entity : Entity) : String :=
  match entity.fields.find? (fun f => f.name == "id") with
  | some f => f.name
  | none =>
    match entity.fields.find? (fun f => f.unique && f.required) with
    | some f => f.name
    | none => "id"

/-! ## MariaDB relational engine (src/data/datasource/relational/mariadb.rs)

Only the pure mapping-and-query-generation core is embedded: the connection
pool, the sqlx executors and the tokio runtime are I/O collaborators outside
the claims. `entity_mappings` is the association-list model of the
`HashMap<String, TableMapping>`. Error messages that the source decorates
with single-quote characters around the entity name are modeled without the
quote characters. -/

/-- The mapping state of `MariaDbDatasource`. -/
structure MariaDbDatasource where
  entity_mappings : List (String × TableMapping)

/-- Model of `normalize_entity_name`: lowercase then trim whitespace. -/
def normalize_entity_name (name : String) : String :=
  trimWhitespace (to_lowercase name)

/-- Model of `find_entity_mapping`: try the normalized name as a key, then
the exact original string, then a linear scan for a mapping whose normalized
table name equals the normalized name. -/
def find_entity_mapping (st : MariaDbDatasource) (entity_name : String) :
    Option TableMapping :=
  let normalized := normalize_entity_name entity_name
  ((mapLookup st.entity_mappings normalized).orElse (fun _ =>
    (mapLookup st.entity_mappings entity_name).orElse (fun _ =>
      (st.entity_mappings.map Prod.snd).find?
        (fun m => normalize_entity_name m.table_name == normalized))))

/-- Model of `generate_select_query`. -/
def generate_select_query (st : MariaDbDatasource) (entity_name : String) :
    Except DataSourceError String :=
  match find_entity_mapping st entity_name with
  | none =>
    Except.error (DataSourceError.NotFound
      ("No mapping found for entity " ++ entity_name))
  | some mapping =>
    let columns := mapping.fields.map (fun field => "`" ++ field.column_name ++ "`")
    Except.ok ("SELECT " ++ joinSep (", ") columns ++ " FROM `" ++
      mapping.table_name ++ "`")

/-- The backtick-quoted column list of the generated INSERT statement, in
mapping-field order (the `columns` vector of `generate_insert_query`). -/
def insert_columns (mapping : TableMapping) : List String :=
  mapping.fields.map (fun field => "`" ++ field.column_name ++ "`")

/-- The placeholder list of the generated INSERT statement: one "?" per
mapped field (the `placeholders` vector of `generate_insert_query`). -/
def insert_placeholders (mapping : TableMapping) : List String :=
  (List.range mapping.fields.length).map (fun _ => "?")

/-- Model of `generate_insert_query`. -/
def generate_insert_query (st : MariaDbDatasource) (entity_name : String) :
    Except DataSourceError String :=
  match find_entity_mapping st entity_name with
  | none =>
    Except.error (DataSourceError.NotFound
      ("No mapping found for entity " ++ entity_name))
  | some mapping =>
    Except.ok ("INSERT INTO `" ++ mapping.table_name ++ "` (" ++
      joinSep (", ") (insert_columns mapping) ++ ") VALUES (" ++
      joinSep (", ") (insert_placeholders mapping) ++ ")")

/-- Model of `entity_to_query_values` after serde serialization: the input
`entity_json` is the `serde_json::to_value` result of the entity. One value
is emitted per mapped field in mapping order, `Null` standing in for a key
missing from the serialized object; a non-object serialization is a
`SerializationError`. -/
def entity_to_query_values (st : MariaDbDatasource) (entity_json : Value)
    (entity_name : String) : Except DataSourceError (List Value) :=
  match find_entity_mapping st entity_name with
  | none =>
    Except.error (DataSourceError.NotFound
      ("No mapping found for entity " ++ entity_name))
  | some mapping =>
    match entity_json with
    | Value.obj m =>
      Except.ok (mapping.fields.map
        (fun field => (mapLookup m field.field_name).getD Value.null))
    | _ =>
      Except.error (DataSourceError.SerializationError
        ("The entity could not be serialized as a JSON object"))

/-! ## Datasource capability (src/data/datasource/base.rs)

The trait is modeled as a record of operations over the payload type `T`.
The operations carry the `entity_name_hint` parameter of the MariaDB
implementation; the read/delete/list handlers, which call the hint-less
form, pass `none`. Backend errors (`Box<dyn Error>`) are modeled by their
display string. `box_clone` disappears under value semantics. -/

/-- Capability record for a pluggable datasource. -/
structure DataSource (T : Type) where
  get_all : Option String → Except String (List T)
  get_by_id : String → Option String → Except String (Option T)
  create : T → Option String → Except String T
  update : String → T → Option String → Except String T
  delete : String → Option String → Except String Bool

/-- Ghost trace element: one performed datasource operation. -/
inductive DsCall where
  | getAll : DsCall
  | getById : String → DsCall
  | createCall : DsCall
  | updateCall : String → DsCall
  | deleteCall : String → DsCall
deriving DecidableEq

/-! ## Generated CRUD handlers (src/api/handlers/crud/*.rs)

Each handler returns the pair of its result and the trace of datasource
operations it performed, in order. The serde deserialization
`serde_json::from_str::<T>` is abstracted as the `deser` parameter. The
source guard `Some(b) if !b.is_empty()` is modeled by matching on the body
and testing `b == ""`. -/

/-- Model of the create endpoint handler closure (create.rs, lines 27-52). -/
def create_handler {T : Type} (ds : DataSource T)
    (deser : String → Except String T) (entity_name : String)
    (request : ApiRequest) :
    Except RusterApiError (ApiResponse T) × List DsCall :=
  match request.body with
  | some b =>
    if b == "" then
      (Except.error (RusterApiError.BadRequest ("Request body is required")), [])
    else
      match deser b with
      | Except.error e =>
        (Except.error (RusterApiError.BadRequest ("Invalid request format: " ++ e)), [])
      | Except.ok new_item =>
        match ds.create new_item (some entity_name) with
        | Except.ok created_item =>
          (Except.ok (ApiResponse.mk 201 default_headers
            (some (ApiResponseBody.single created_item))), [DsCall.createCall])
        | Except.error e =>
          (Except.error (RusterApiError.ServerError ("Failed to create item: " ++ e)),
            [DsCall.createCall])
  | none =>
    (Except.error (RusterApiError.BadRequest ("Request body is required")), [])

/-- Model of the read endpoint handler closure (read.rs, lines 23-44). -/
def read_handler {T : Type} (ds : DataSource T) (request : ApiRequest) :
    Except RusterApiError (ApiResponse T) × List DsCall :=
  match mapLookup request.params ("id") with
  | none =>
    (Except.error (RusterApiError.ValidationError ("ID parameter missing")), [])
  | some id =>
    match ds.get_by_id id none with
    | Except.ok (some item) =>
      (Except.ok (ApiResponse.mk 200 default_headers
        (some (ApiResponseBody.single item))), [DsCall.getById id])
    | Except.ok none =>
      (Except.error (RusterApiError.EntityNotFound
        ("Item with ID " ++ id ++ " not found")), [DsCall.getById id])
    | Except.error err =>
      (Except.error (handle_datasource_error err), [DsCall.getById id])

/-- Model of the update endpoint handler closure (update.rs, lines 24-64):
id parameter, non-empty body, deserialization, then the check-then-act
sequence of `get_by_id` followed by `update`. -/
def update_handler {T : Type} (ds : DataSource T)
    (deser : String → Except String T) (entity_name : String)
    (request : ApiRequest) :
    Except RusterApiError (ApiResponse T) × List DsCall :=
  match mapLookup request.params ("id") with
  | none =>
    (Except.error (RusterApiError.ValidationError ("ID parameter missing")), [])
  | some id =>
    match request.body with
    | some b =>
      if b == "" then
        (Except.error (RusterApiError.BadRequest ("Request body is required")), [])
      else
        match deser b with
        | Except.error e =>
          (Except.error (RusterApiError.BadRequest ("Invalid request format: " ++ e)), [])
        | Except.ok updated_item =>
          match ds.get_by_id id (some entity_name) with
          | Except.ok (some _) =>
            match ds.update id updated_item (some entity_name) with
            | Except.ok item =>
              (Except.ok (ApiResponse.mk 200 default_headers
                (some (ApiResponseBody.single item))),
                [DsCall.getById id, DsCall.updateCall id])
            | Except.error err =>
              (Except.error (handle_datasource_error err),
                [DsCall.getById id, DsCall.updateCall id])
          | Except.ok none =>
            (Except.error (RusterApiError.EntityNotFound
              ("Item with ID " ++ id ++ " not found")), [DsCall.getById id])
          | Except.error err =>
            (Except.error (handle_datasource_error err), [DsCall.getById id])
    | none =>
      (Except.error (RusterApiError.BadRequest ("Request body is required")), [])

/-- Model of the delete endpoint handler closure (delete.rs, lines 22-43). -/
def delete_handler {T : Type} (ds : DataSource T) (request : ApiRequest) :
    Except RusterApiError (ApiResponse T) × List DsCall :=
  match mapLookup request.params ("id") with
  | none =>
    (Except.error (RusterApiError.ValidationError ("ID parameter missing")), [])
  | some id =>
    match ds.delete id none with
    | Except.ok true =>
      (Except.ok (ApiResponse.mk 204 default_headers none), [DsCall.deleteCall id])
    | Except.ok false =>
      (Except.error (RusterApiError.EntityNotFound
        ("Item with ID " ++ id ++ " not found")), [DsCall.deleteCall id])
    | Except.error err =>
      (Except.error (handle_datasource_error err), [DsCall.deleteCall id])

/-- Model of the list endpoint handler closure (list.rs, lines 21-33). -/
def list_handler {T : Type} (ds : DataSource T) (_request : ApiRequest) :
    Except RusterApiError (ApiResponse T) × List DsCall :=
  match ds.get_all none with
  | Except.ok items =>
    (Except.ok (ApiResponse.mk 200 default_headers
      (some (ApiResponseBody.list items))), [DsCall.getAll])
  | Except.error err =>
    (Except.error (handle_datasource_error err), [DsCall.getAll])

/-- The handler type stored in an endpoint map (`EndpointHandler<T>`), with
the ghost trace stripped. -/
abbrev Handler (T : Type) :=
  ApiRequest → Except RusterApiError (ApiResponse T)

/-! ## Handler registration (src/api/handlers/crud/*.rs, registration tails) -/

/-- Model of `register_create_endpoint`: inserts the create handler under
`POST:<name>` and under `POST:api/<name>`. -/
def register_create_endpoint {T : Type} (ds : DataSource T)
    (deser : String → Except String T) (entity : Entity)
    (endpoints : List (String × Handler T)) : List (String × Handler T) :=
  let base_path := entity.name
  let endpoint_key := "POST:" ++ base_path
  let handler : Handler T :=
    fun request => (create_handler ds deser entity.name request).1
  let endpoints1 := mapInsert endpoints endpoint_key handler
  let api_endpoint_key := "POST:api/" ++ base_path
  mapInsert endpoints1 api_endpoint_key handler

/-- Model of `register_read_endpoint`: inserts the read handler under
`GET:<name>/:id` and under `GET:api/<name>/:id`. -/
def register_read_endpoint {T : Type} (ds : DataSource T) (entity : Entity)
    (endpoints : List (String × Handler T)) : List (String × Handler T) :=
  let base_path := entity.name ++ "/:id"
  let endpoint_key := "GET:" ++ base_path
  let handler : Handler T := fun request => (read_handler ds request).1
  let endpoints1 := mapInsert endpoints endpoint_key handler
  let api_endpoint_key := "GET:api/" ++ base_path
  mapInsert endpoints1 api_endpoint_key handler

/-- Model of `register_update_endpoint`: inserts the update handler under
`PUT:<name>/:id` and under `PUT:api/<name>/:id`. -/
def register_update_endpoint {T : Type} (ds : DataSource T)
    (deser : String → Except String T) (entity : Entity)
    (endpoints : List (String × Handler T)) : List (String × Handler T) :=
  let base_path := entity.name ++ "/:id"
  let endpoint_key := "PUT:" ++ base_path
  let handler : Handler T :=
    fun request => (update_handler ds deser entity.name request).1
  let endpoints1 := mapInsert endpoints endpoint_key handler
  let api_endpoint_key := "PUT:api/" ++ base_path
  mapInsert endpoints1 api_endpoint_key handler

/-- Model of `register_delete_endpoint`: inserts the delete handler under
`DELETE:<name>/:id` only (the source registers no `api/` variant here). -/
def register_delete_endpoint {T : Type} (ds : DataSource T) (entity : Entity)
    (endpoints : List (String × Handler T)) : List (String × Handler T) :=
  let base_path := entity.name ++ "/:id"
  let endpoint_key := "DELETE:" ++ base_path
  let handler : Handler T := fun request => (delete_handler ds request).1
  mapInsert endpoints endpoint_key handler

/-- Model of `register_list_endpoint`: inserts the list handler under
`GET:<base_path>` only (the source registers no `api/` variant here). -/
def register_list_endpoint {T : Type} (ds : DataSource T) (base_path : String)
    (endpoints : List (String × Handler T)) : List (String × Handler T) :=
  let endpoint_key := "GET:" ++ base_path
  let handler : Handler T := fun request => (list_handler ds request).1
  mapInsert endpoints endpoint_key handler

/-! ## Request router / adapter (src/api/adapters/api_adapter.rs) -/

/-- The slice of `Config` the dispatch layer reads: `handle_request` only
consults `config.api_prefix` (the remaining configuration fields feed
startup-time collaborators outside the core). -/
structure Config where
  api_prefix : Option String

/-- Model of `EntityApi<T>`: the endpoint map of one entity. The datasource
member of the source struct is only re-read by startup code, never by
dispatch, and is elided. -/
structure EntityApi (T : Type) where
  endpoints : List (String × Handler T)

/-- Model of `ApiAdapter<T>`. -/
structure ApiAdapter (T : Type) where
  config : Config
  entities : List (String × EntityApi T)

/-- Entity-name extraction of `handle_request` (api_adapter.rs, lines
82-112): split the path on slashes discarding empty segments; when an
`api_prefix` is configured and the first segment equals the slash-trimmed
form of it, the (lowercased) second segment is the entity name; otherwise
the (lowercased) first segment; an empty segment list is a
`ValidationError`. -/
def extract_entity_name (apiPfx : Option String) (path : String) :
    Except RusterApiError String :=
  let path_parts := (splitChar '/' path).filter (fun s => !(s == ""))
  match apiPfx with
  | some p =>
    let pfx := trimSlashes p
    match path_parts with
    | [] =>
      Except.error (RusterApiError.ValidationError ("Invalid path: empty path"))
    | p0 :: rest =>
      if p0 == pfx then
        match rest with
        | [] =>
          Except.error (RusterApiError.ValidationError
            ("Invalid path: missing entity name"))
        | p1 :: _ => Except.ok (to_lowercase p1)
      else Except.ok (to_lowercase p0)
  | none =>
    match path_parts with
    | [] =>
      Except.error (RusterApiError.ValidationError ("Invalid path: empty path"))
    | p0 :: _ => Except.ok (to_lowercase p0)

/-- The entity-name extraction rule exactly as the claim states it, written
from the words of the specification (segments by position, no lowering: the
claim postpones case handling to the resolution step). -/
def spec_extract_entity_name (apiPfx : Option String) (path : String) :
    Except RusterApiError String :=
  let segs := (splitChar '/' path).filter (fun s => !(s == ""))
  match apiPfx, segs with
  | _, [] =>
    Except.error (RusterApiError.ValidationError ("Invalid path: empty path"))
  | some p, first :: rest =>
    if first == trimSlashes p then
      match rest with
      | [] =>
        Except.error (RusterApiError.ValidationError
          ("Invalid path: missing entity name"))
      | second :: _ => Except.ok second
    else Except.ok first
  | none, first :: _ => Except.ok first

/-- Case-insensitive entity resolution of `handle_request` (lines 117-125):
scan the registered entity keys for one whose lowercase form equals the
extracted name. -/
def find_entity {T : Type} (entities : List (String × EntityApi T))
    (entity_name : String) : Option (EntityApi T) :=
  (entities.find? (fun kv => to_lowercase kv.1 == entity_name)).map Prod.snd

/-- The four candidate endpoint keys tried in order by `handle_request`
(lines 129-138). -/
def candidate_keys (method : HttpMethod) (entity_name : String) : List String :=
  [method.debugStr ++ ":" ++ entity_name,
   method.debugStr ++ ":" ++ entity_name ++ "/:id",
   method.debugStr ++ ":api/" ++ entity_name,
   method.debugStr ++ ":api/" ++ entity_name ++ "/:id"]

/-- First handler found among the candidate keys, in order (lines 144-160). -/
def find_first_handler {T : Type} (endpoints : List (String × Handler T)) :
    List String → Option (Handler T)
  | [] => none
  | k :: ks =>
    match mapLookup endpoints k with
    | some h => some h
    | none => find_first_handler endpoints ks

/-- Model of `ApiAdapter::handle_request` (lines 79-190). Diagnostic error
messages that the source decorates with the debug rendering of the known
entity or endpoint key sets are modeled without that suffix: no claim reads
those suffixes. When a handler found through a candidate key reports an
`EndpointGenerationError`, the router converts it to an `Ok` response of
status 500 with empty headers and no body; a handler found through the
partial-match fallback is invoked with its result returned as is. -/
def handle_request {T : Type} (adapter : ApiAdapter T) (request : ApiRequest) :
    Except RusterApiError (ApiResponse T) :=
  match extract_entity_name ( Config.api_prefix adapter.config) request.path with
  | Except.error e => Except.error e
  | Except.ok entity_name =>
    match find_entity adapter.entities entity_name with
    | none =>
      Except.error (RusterApiError.EntityNotFound
        ("Entity not found: " ++ entity_name))
    | some entity_api =>
      match find_first_handler entity_api.endpoints
          (candidate_keys request.method entity_name) with
      | some handler =>
        match handler request with
        | Except.ok response => Except.ok response
        | Except.error (RusterApiError.EndpointGenerationError _) =>
          Except.ok (ApiResponse.mk 500 [] none)
        | Except.error e => Except.error e
      | none =>
        match entity_api.endpoints.find? (fun kv =>
            listContainsSub entity_name.data kv.1.data &&
            (HttpMethod.debugStr request.method).data.isPrefixOf kv.1.data) with
        | some kv => kv.2 request
        | none =>
          Except.error (RusterApiError.EntityNotFound
            ("Endpoint not found for " ++ HttpMethod.debugStr request.method ++
              " " ++ request.path))

/-! ## Transport error mapping (src/api/rocket/handlers/catch_all.rs) -/

/-- Display rendering of `RusterApiError` (the thiserror attributes in
src/error.rs; the SerializationError text reproduces the source typo). The
stale enum declaration gives no text for `BadRequest`; its display here
follows the conventional pattern of the others. -/
def RusterApiError.displayString : RusterApiError → String
  | RusterApiError.EndpointGenerationError m => "Endpoint generation error: " ++ m
  | RusterApiError.ConfigError m => "Configuration error: " ++ m
  | RusterApiError.DatabaseError m => "Database error: " ++ m
  | RusterApiError.EntityNotFound m => "Entity not found: " ++ m
  | RusterApiError.SerializationError m => "Serialization errot " ++ m
  | RusterApiError.ValidationError m => "Validation error: " ++ m
  | RusterApiError.AuthError m => "Authentication error: " ++ m
  | RusterApiError.IoError m => "I/O error: " ++ m
  | RusterApiError.NotFound m => "Not found: " ++ m
  | RusterApiError.ServerError m => "Server error: " ++ m
  | RusterApiError.BadRequest m => "Bad request: " ++ m

/-- Status selection of `process_request` for a dispatch error
(catch_all.rs, lines 138-144). -/
def error_status : RusterApiError → Status
  | RusterApiError.EntityNotFound _ => Status.NotFound
  | RusterApiError.ValidationError _ => Status.BadRequest
  | RusterApiError.BadRequest _ => Status.BadRequest
  | RusterApiError.DatabaseError _ => Status.InternalServerError
  | _ => Status.InternalServerError

/-- The error response built at the transport boundary by `process_request`
(catch_all.rs, lines 136-155): the selected status code, default headers and
a JSON body of the shape `\x7b"error": "<message>"\x7d`. -/
def process_request_error (err : RusterApiError) : ApiResponse Value :=
  ApiResponse.mk (error_status err).code default_headers
    (some (ApiResponseBody.json
      (Value.obj [("error", Value.str ( RusterApiError.displayString err))])))

/-! ## Concrete instances used by witnesses and counterexamples -/

/-- A `users` entity with every CRUD flag enabled and no fields. -/
def exUsersEntity : Entity :=
  Entity.mk "users" none [] [] (EndpointConfig.mk true true true true true []) false
    (Authorization.mk false [] []) [] none

/-- An entity with a single non-unique, non-required field and no field
named "id". -/
def exNoIdEntity : Entity :=
  Entity.mk "notes" none
    [Field.mk "name" none DataType.String false false true none none]
    [] (EndpointConfig.mk true true true true true []) false
    (Authorization.mk false [] []) [] none

/-- An entity whose first field is unique and required and whose second
field is named "id". -/
def exUniquePkEntity : Entity :=
  Entity.mk "accounts" none
    [Field.mk "email" none DataType.String true true true none none,
     Field.mk "id" none DataType.String true true true none none]
    [] (EndpointConfig.mk true true true true true []) false
    (Authorization.mk false [] []) [] none

/-- A datasource over `Nat` whose reads find nothing and whose writes echo
their input. -/
def trivialDsN : DataSource Nat :=
  DataSource.mk (fun _ => Except.ok []) (fun _ _ => Except.ok none)
    (fun item _ => Except.ok item) (fun _ item _ => Except.ok item)
    (fun _ _ => Except.ok false)

/-- A datasource over `Nat` whose `get_by_id` always finds the record `1`. -/
def someDsN : DataSource Nat :=
  DataSource.mk (fun _ => Except.ok []) (fun _ _ => Except.ok (some 1))
    (fun item _ => Except.ok item) (fun _ item _ => Except.ok item)
    (fun _ _ => Except.ok true)

/-- A deserializer over `Nat` that accepts every body as the record `0`. -/
def okDeserN : String → Except String Nat := fun _ => Except.ok 0

/-- A request with no path parameters. -/
def exReqNoId : ApiRequest := ApiRequest.mk HttpMethod.GET "/users" [] [] none

/-- An update request for id 7 with a non-empty body. -/
def exUpdateReq : ApiRequest :=
  ApiRequest.mk HttpMethod.PUT "/users/7" [("id", "7")] [] (some "x")

/-- A create request with a non-empty body. -/
def exCreateReqOk : ApiRequest :=
  ApiRequest.mk HttpMethod.POST "/users" [] [] (some "x")

/-- A create request with an empty body. -/
def exCreateReqEmpty : ApiRequest :=
  ApiRequest.mk HttpMethod.POST "/users" [] [] (some "")

/-- A handler that always reports an `EndpointGenerationError`. -/
def exC7Handler : Handler Nat :=
  fun _ => Except.error (RusterApiError.EndpointGenerationError "boom")

/-- An adapter whose only endpoint key for `users` matches no candidate key
and is reachable only through the partial-match fallback. -/
def exC7FallbackAdapter : ApiAdapter Nat :=
  ApiAdapter.mk (Config.mk none)
    [("users", EntityApi.mk [("GET:users/custom", exC7Handler)])]

/-- An adapter whose `users` endpoint map carries the failing handler under
the first candidate key `GET:users`. -/
def exC7CandidateAdapter : ApiAdapter Nat :=
  ApiAdapter.mk (Config.mk none)
    [("users", EntityApi.mk [("GET:users", exC7Handler)])]

/-- A GET request for path `/users`. -/
def exC7Request : ApiRequest := ApiRequest.mk HttpMethod.GET "/users" [] [] none

/-- A table mapping with no fields for entity `users`. -/
def exMapping : TableMapping := TableMapping.mk "users" "id" []

/-- A MariaDB mapping state knowing only `users`. -/
def exMariaSt : MariaDbDatasource := MariaDbDatasource.mk [("users", exMapping)]

/-- A MariaDB mapping state knowing nothing. -/
def exEmptySt : MariaDbDatasource := MariaDbDatasource.mk []

/-- A two-field mapping with distinct field and column names. -/
def exC9Mapping : TableMapping :=
  TableMapping.mk "user_table" "user_id"
    [FieldMapping.mk "id" "user_id" "string",
     FieldMapping.mk "name" "user_name" "string"]

/-- A MariaDB mapping state holding `exC9Mapping` under `users`. -/
def exC9St : MariaDbDatasource := MariaDbDatasource.mk [("users", exC9Mapping)]

/-- A serialized entity object providing only the `id` key. -/
def exC9Obj : List (String × Value) := [("id", Value.str "1")]

/-! ## Helper lemmas -/

/-- Strings of different underlying lengths are not `==`. -/
theorem string_beq_false_of_length_ne (s t : String)
    (h : s.data.length ≠ t.data.length) : (s == t) = false := by
  refine beq_eq_false_iff_ne.mpr (fun he => h ?_)
  rw [he]

/-- Appending the same right part to prefixes of different lengths yields
distinct strings. -/
theorem append_beq_false (a b n : String) (h : a.data.length ≠ b.data.length) :
    ((a ++ n) == (b ++ n)) = false := by
  refine string_beq_false_of_length_ne _ _ ?_
  intro he
  rw [String.data_append, String.data_append, List.length_append,
    List.length_append] at he
  omega

/-- Inserting into the empty map appends. -/
theorem mapInsert_nil {α : Type} (k : String) (v : α) :
    mapInsert [] k v = [(k, v)] := rfl

/-- Inserting a fresh key into a singleton map appends. -/
theorem mapInsert_singleton_ne {α : Type} (k1 k2 : String) (h1 v : α)
    (hk : (k1 == k2) = false) :
    mapInsert [(k1, h1)] k2 v = [(k1, h1), (k2, v)] := by
  simp [mapInsert, List.find?, hk]

/-- The field-mapping vector is never empty after a `create_table_mapping`
loop step. -/
theorem ctm_step_fst_ne_nil (acc : List FieldMapping × String) (f : Field) :
    (ctm_step acc f).1 ≠ [] := by
  simp [ctm_step]

/-- Once the field-mapping vector is non-empty, a loop step keeps the
primary-key candidate unchanged. -/
theorem ctm_step_snd_of_ne_nil (acc : List FieldMapping × String) (f : Field)
    (h : acc.1 ≠ []) : (ctm_step acc f).2 = acc.2 := by
  obtain ⟨l, pk⟩ := acc
  cases l with
  | nil => exact absurd rfl h
  | cons x xs =>
    simp only [ctm_step, List.length_append, List.length_cons, List.length_nil]
    rw [if_neg]
    simp only [beq_iff_eq]
    omega

/-- Folding further loop steps over a non-empty accumulator never changes
the primary-key candidate. -/
theorem ctm_foldl_snd (fs : List Field) (acc : List FieldMapping × String)
    (h : acc.1 ≠ []) : (fs.foldl ctm_step acc).2 = acc.2 := by
  induction fs generalizing acc with
  | nil => rfl
  | cons f rest ih =>
    rw [List.foldl_cons, ih _ (ctm_step_fst_ne_nil acc f),
      ctm_step_snd_of_ne_nil acc f h]

/-! ## Claim theorems -/

/-- C5: for every error produced by request dispatch, the status code of the
response built at the transport boundary is exactly 404 for EntityNotFound,
400 for ValidationError, 400 for BadRequest, 500 for DatabaseError, and 500
for ServerError, EndpointGenerationError and every other variant. -/
theorem C5_error_status_mapping : ∀ msg : String,
    (process_request_error (RusterApiError.EntityNotFound msg)).status = 404 ∧
    (process_request_error (RusterApiError.ValidationError msg)).status = 400 ∧
    (process_request_error (RusterApiError.BadRequest msg)).status = 400 ∧
    (process_request_error (RusterApiError.DatabaseError msg)).status = 500 ∧
    (process_request_error (RusterApiError.ServerError msg)).status = 500 ∧
    (process_request_error (RusterApiError.EndpointGenerationError msg)).status = 500 ∧
    (process_request_error (RusterApiError.ConfigError msg)).status = 500 ∧
    (process_request_error (RusterApiError.SerializationError msg)).status = 500 ∧
    (process_request_error (RusterApiError.AuthError msg)).status = 500 ∧
    (process_request_error (RusterApiError.IoError msg)).status = 500 ∧
    (process_request_error (RusterApiError.NotFound msg)).status = 500 :=
  fun _ => ⟨rfl, rfl, rfl, rfl, rfl, rfl, rfl, rfl, rfl, rfl, rfl⟩

/-- C6 counterexample: `create_table_mapping` gives an entity with one
plain field the primary key "name" where the claimed rule gives "id", and
`detect_primary_key` prefers an earlier unique-and-required field over a
later one literally named "id". -/
theorem C6_counterexample :
    (create_table_mapping exNoIdEntity).primary_key = "name" ∧
    spec_primary_key exNoIdEntity = "id" ∧
    (create_table_mapping exNoIdEntity).primary_key ≠ spec_primary_key exNoIdEntity ∧
    detect_primary_key exUniquePkEntity = "email" ∧
    spec_primary_key exUniquePkEntity = "id" :=
  ⟨rfl, rfl, by decide, rfl, rfl⟩

/-- C6 as amended: the derived TableMapping primary key is the column name
of the first field of the entity (the declared column override, defaulting
to the field name), and the literal "id" when the entity has no fields. -/
theorem C6_primary_key_is_first_column (entity : Entity) :
    (create_table_mapping entity).primary_key =
      match entity.fields with
      | [] => "id"
      | f :: _ => f.column_name.getD f.name := by
  cases hf : entity.fields with
  | nil => simp [create_table_mapping, hf]
  | cons f rest =>
    simp only [create_table_mapping, hf, List.foldl_cons]
    rw [ctm_foldl_snd rest _ (ctm_step_fst_ne_nil _ f)]
    simp [ctm_step]

/-- C10: a read, update or delete request whose params map has no "id" key
produces a ValidationError reading "ID parameter missing" and an empty
datasource trace. -/
theorem C10_missing_id_validation {T : Type} (ds : DataSource T)
    (deser : String → Except String T) (ename : String) (req : ApiRequest)
    (h : mapLookup req.params ("id") = none) :
    read_handler ds req
      = (Except.error (RusterApiError.ValidationError ("ID parameter missing")), []) ∧
    update_handler ds deser ename req
      = (Except.error (RusterApiError.ValidationError ("ID parameter missing")), []) ∧
    delete_handler ds req
      = (Except.error (RusterApiError.ValidationError ("ID parameter missing")), []) := by
  refine ⟨?_, ?_, ?_⟩ <;> simp [read_handler, update_handler, delete_handler, h]

/-- C10 witness: the three handlers on a concrete request with no params. -/
theorem C10_witness :
    read_handler trivialDsN exReqNoId
      = (Except.error (RusterApiError.ValidationError ("ID parameter missing")), []) ∧
    update_handler trivialDsN okDeserN "users" exReqNoId
      = (Except.error (RusterApiError.ValidationError ("ID parameter missing")), []) ∧
    delete_handler trivialDsN exReqNoId
      = (Except.error (RusterApiError.ValidationError ("ID parameter missing")), []) :=
  C10_missing_id_validation trivialDsN okDeserN "users" exReqNoId rfl

/-- C4: the create handler rejects an absent or empty body with BadRequest
and an empty datasource trace, rejects an undeserializable body with
BadRequest, answers a successful datasource create with status 201 and the
created entity as Single, and wraps a failed create into ServerError. -/
theorem C4_create_handler_behavior {T : Type} (ds : DataSource T)
    (deser : String → Except String T) (ename : String) (req : ApiRequest) :
    ((req.body = none ∨ req.body = some "") →
      create_handler ds deser ename req
        = (Except.error (RusterApiError.BadRequest ("Request body is required")), [])) ∧
    (∀ b e, req.body = some b → (b == "") = false → deser b = Except.error e →
      create_handler ds deser ename req
        = (Except.error (RusterApiError.BadRequest ("Invalid request format: " ++ e)), [])) ∧
    (∀ b item created, req.body = some b → (b == "") = false →
      deser b = Except.ok item → ds.create item (some ename) = Except.ok created →
      create_handler ds deser ename req
        = (Except.ok (ApiResponse.mk 201 default_headers
            (some (ApiResponseBody.single created))), [DsCall.createCall])) ∧
    (∀ b item e, req.body = some b → (b == "") = false →
      deser b = Except.ok item → ds.create item (some ename) = Except.error e →
      create_handler ds deser ename req
        = (Except.error (RusterApiError.ServerError ("Failed to create item: " ++ e)),
            [DsCall.createCall])) := by
  refine ⟨?_, ?_, ?_, ?_⟩
  · rintro (h | h) <;> simp [create_handler, h]
  · intro b e hb hne hd
    simp [create_handler, hb, hne, hd]
  · intro b item created hb hne hd hc
    simp [create_handler, hb, hne, hd, hc]
  · intro b item e hb hne hd hc
    simp [create_handler, hb, hne, hd, hc]

/-- C4 witness: the empty-body branch and the 201 branch at concrete
inputs. -/
theorem C4_witness :
    create_handler trivialDsN okDeserN "users" exCreateReqEmpty
      = (Except.error (RusterApiError.BadRequest ("Request body is required")), []) ∧
    create_handler trivialDsN okDeserN "users" exCreateReqOk
      = (Except.ok (ApiResponse.mk 201 default_headers
          (some (ApiResponseBody.single 0))), [DsCall.createCall]) :=
  ⟨(C4_create_handler_behavior trivialDsN okDeserN "users" exCreateReqEmpty).1
      (Or.inr rfl),
   (C4_create_handler_behavior trivialDsN okDeserN "users" exCreateReqOk).2.2.1
      "x" 0 0 rfl rfl rfl rfl⟩

/-- C3 counterexample: for the entity `users` the delete registration emits
only the canonical key, omitting the api-prefixed one, and so does the
list registration. -/
theorem C3_counterexample :
    (register_delete_endpoint trivialDsN exUsersEntity []).map Prod.fst
      = ["DELETE:users/:id"] ∧
    ("DELETE:api/users/:id" ∈
      (register_delete_endpoint trivialDsN exUsersEntity []).map Prod.fst → False) ∧
    (register_list_endpoint trivialDsN (Entity.name exUsersEntity) []).map Prod.fst
      = ["GET:users"] ∧
    ("GET:api/users" ∈
      (register_list_endpoint trivialDsN (Entity.name exUsersEntity) []).map Prod.fst
        → False) := by
  refine ⟨rfl, ?_, rfl, ?_⟩ <;> decide

/-- C3 as amended: the create, read and update registrations insert the
handler under both the canonical endpoint key and the api-prefixed key;
the delete and list registrations insert only the canonical key. -/
theorem C3_registration_keys {T : Type} (ds : DataSource T)
    (deser : String → Except String T) (entity : Entity) :
    (register_create_endpoint ds deser entity []).map Prod.fst
      = ["POST:" ++ entity.name, "POST:api/" ++ entity.name] ∧
    (register_read_endpoint ds entity []).map Prod.fst
      = ["GET:" ++ (entity.name ++ "/:id"), "GET:api/" ++ (entity.name ++ "/:id")] ∧
    (register_update_endpoint ds deser entity []).map Prod.fst
      = ["PUT:" ++ (entity.name ++ "/:id"), "PUT:api/" ++ (entity.name ++ "/:id")] ∧
    (register_delete_endpoint ds entity []).map Prod.fst
      = ["DELETE:" ++ (entity.name ++ "/:id")] ∧
    (register_list_endpoint ds entity.name []).map Prod.fst
      = ["GET:" ++ entity.name] := by
  refine ⟨?_, ?_, ?_, rfl, rfl⟩
  · simp only [register_create_endpoint, mapInsert_nil]
    rw [mapInsert_singleton_ne _ _ _ _ (append_beq_false _ _ _ (by decide))]
    rfl
  · simp only [register_read_endpoint, mapInsert_nil]
    rw [mapInsert_singleton_ne _ _ _ _ (append_beq_false _ _ _ (by decide))]
    rfl
  · simp only [register_update_endpoint, mapInsert_nil]
    rw [mapInsert_singleton_ne _ _ _ _ (append_beq_false _ _ _ (by decide))]
    rfl

/-- C1: for every update request that passes the id, body and
deserialization checks, the first datasource call of the handler is
`get_by_id`; when `get_by_id` finds nothing the handler answers
EntityNotFound and `update` is never invoked; `update` is only ever invoked
for the id on which `get_by_id` found a record; and when `get_by_id` finds a
record and `update` succeeds the handler answers status 200 with the updated
item as Single. -/
theorem C1_update_check_then_act {T : Type} (ds : DataSource T)
    (deser : String → Except String T) (ename : String) (req : ApiRequest)
    (id : String) (b : String) (item : T)
    (hid : mapLookup req.params ("id") = some id)
    (hbody : req.body = some b) (hne : (b == "") = false)
    (hdeser : deser b = Except.ok item) :
    ((update_handler ds deser ename req).2.head? = some (DsCall.getById id)) ∧
    (ds.get_by_id id (some ename) = Except.ok none →
      update_handler ds deser ename req
        = (Except.error (RusterApiError.EntityNotFound
            ("Item with ID " ++ id ++ " not found")), [DsCall.getById id])) ∧
    (∀ j, DsCall.updateCall j ∈ (update_handler ds deser ename req).2 →
      j = id ∧ ∃ found, ds.get_by_id id (some ename) = Except.ok (some found)) ∧
    (∀ found updated, ds.get_by_id id (some ename) = Except.ok (some found) →
      ds.update id item (some ename) = Except.ok updated →
      update_handler ds deser ename req
        = (Except.ok (ApiResponse.mk 200 default_headers
            (some (ApiResponseBody.single updated))),
            [DsCall.getById id, DsCall.updateCall id])) := by
  refine ⟨?_, ?_, ?_, ?_⟩
  · cases hg : ds.get_by_id id (some ename) with
    | error e => simp [update_handler, hid, hbody, hne, hdeser, hg]
    | ok o =>
      cases o with
      | none => simp [update_handler, hid, hbody, hne, hdeser, hg]
      | some f =>
        cases hu : ds.update id item (some ename) <;>
          simp [update_handler, hid, hbody, hne, hdeser, hg, hu]
  · intro hg
    simp [update_handler, hid, hbody, hne, hdeser, hg]
  · intro j hj
    cases hg : ds.get_by_id id (some ename) with
    | error e =>
      simp [update_handler, hid, hbody, hne, hdeser, hg] at hj
    | ok o =>
      cases o with
      | none => simp [update_handler, hid, hbody, hne, hdeser, hg] at hj
      | some f =>
        refine ⟨?_, f, rfl⟩
        cases hu : ds.update id item (some ename) <;>
          simp [update_handler, hid, hbody, hne, hdeser, hg, hu] at hj <;>
          exact hj
  · intro found updated hg hu
    simp [update_handler, hid, hbody, hne, hdeser, hg, hu]

/-- C1 witness: the EntityNotFound branch on a datasource that finds
nothing, and the 200 branch on one that finds record 1. -/
theorem C1_witness :
    update_handler trivialDsN okDeserN "users" exUpdateReq
      = (Except.error (RusterApiError.EntityNotFound
          ("Item with ID " ++ "7" ++ " not found")), [DsCall.getById "7"]) ∧
    update_handler someDsN okDeserN "users" exUpdateReq
      = (Except.ok (ApiResponse.mk 200 default_headers
          (some (ApiResponseBody.single 0))),
          [DsCall.getById "7", DsCall.updateCall "7"]) :=
  ⟨(C1_update_check_then_act trivialDsN okDeserN "users" exUpdateReq
      "7" "x" 0 rfl rfl rfl rfl).2.1 rfl,
   (C1_update_check_then_act someDsN okDeserN "users" exUpdateReq
      "7" "x" 0 rfl rfl rfl rfl).2.2.2 1 0 rfl rfl⟩

/-- C2: the entity name extracted by dispatch is the lowercased form of the
segment the specification rule selects (first path segment, or second when
the first equals the slash-trimmed api prefix, with ValidationError on an
empty path or a missing second segment), and resolution against registered
keys is case-insensitive, so /Users and /users both yield the registered
entity `users`. -/
theorem C2_entity_extraction_and_resolution (T : Type) (api : EntityApi T) :
    (∀ (apiPfx : Option String) (path : String),
      extract_entity_name apiPfx path
        = Except.map to_lowercase (spec_extract_entity_name apiPfx path)) ∧
    extract_entity_name none "/Users" = Except.ok "users" ∧
    extract_entity_name none "/users" = Except.ok "users" ∧
    find_entity [("users", api)] "users" = some api := by
  refine ⟨?_, rfl, rfl, rfl⟩
  intro apiPfx path
  cases apiPfx with
  | none =>
    simp only [extract_entity_name, spec_extract_entity_name]
    cases (splitChar '/' path).filter (fun s => !(s == "")) with
    | nil => rfl
    | cons p0 rest => rfl
  | some p =>
    simp only [extract_entity_name, spec_extract_entity_name]
    cases (splitChar '/' path).filter (fun s => !(s == "")) with
    | nil => rfl
    | cons p0 rest =>
      by_cases hp : (p0 == trimSlashes p) = true
      · cases rest <;> simp [hp, Except.map]
      · rw [Bool.not_eq_true] at hp
        simp [hp, Except.map]

/-- C7 counterexample: a handler reachable only through the partial-match
fallback reports an EndpointGenerationError and dispatch propagates the
error instead of answering a status-500 response. -/
theorem C7_counterexample :
    handle_request exC7FallbackAdapter exC7Request
      = Except.error (RusterApiError.EndpointGenerationError "boom") := rfl

/-- C7 as amended: only when dispatch finds the handler through one of the
four candidate endpoint keys does an EndpointGenerationError from the
handler become a successful response of status 500 with empty headers and
no body; the partial-match fallback propagates handler errors unchanged. -/
theorem C7_candidate_key_error_isolation {T : Type} (adapter : ApiAdapter T)
    (request : ApiRequest) (ename : String) (eapi : EntityApi T)
    (h : Handler T) (msg : String)
    (hname : extract_entity_name ( Config.api_prefix adapter.config) request.path
      = Except.ok ename)
    (hfind : find_entity adapter.entities ename = some eapi)
    (hkey : find_first_handler eapi.endpoints (candidate_keys request.method ename)
      = some h)
    (hcall : h request = Except.error (RusterApiError.EndpointGenerationError msg)) :
    handle_request adapter request = Except.ok (ApiResponse.mk 500 [] none) := by
  simp [handle_request, hname, hfind, hkey, hcall]

/-- C7 witness: the conversion at a concrete adapter whose failing handler
sits under the first candidate key. -/
theorem C7_witness :
    handle_request exC7CandidateAdapter exC7Request
      = Except.ok (ApiResponse.mk 500 [] none) :=
  C7_candidate_key_error_isolation exC7CandidateAdapter exC7Request "users"
    (EntityApi.mk [("GET:users", exC7Handler)]) exC7Handler "boom"
    rfl rfl rfl rfl

/-- C8: the mapping lookup tries the normalized name as a key, then the
exact original string, then a linear scan on normalized table names, in
that order, and a query generator using a failed lookup answers NotFound
naming the requested entity. -/
theorem C8_entity_mapping_lookup_policy (st : MariaDbDatasource)
    (entity_name : String) :
    (∀ m, mapLookup st.entity_mappings (normalize_entity_name entity_name) = some m →
      find_entity_mapping st entity_name = some m) ∧
    (mapLookup st.entity_mappings (normalize_entity_name entity_name) = none →
      ∀ m, mapLookup st.entity_mappings entity_name = some m →
        find_entity_mapping st entity_name = some m) ∧
    (mapLookup st.entity_mappings (normalize_entity_name entity_name) = none →
      mapLookup st.entity_mappings entity_name = none →
      find_entity_mapping st entity_name
        = (st.entity_mappings.map Prod.snd).find?
            (fun m => normalize_entity_name m.table_name
              == normalize_entity_name entity_name)) ∧
    (find_entity_mapping st entity_name = none →
      generate_select_query st entity_name
        = Except.error (DataSourceError.NotFound
            ("No mapping found for entity " ++ entity_name))) := by
  refine ⟨?_, ?_, ?_, ?_⟩
  · intro m hm
    simp [find_entity_mapping, hm, Option.orElse]
  · intro h0 m hm
    simp [find_entity_mapping, h0, hm, Option.orElse]
  · intro h0 h1
    simp [find_entity_mapping, h0, h1, Option.orElse]
  · intro hf
    simp [generate_select_query, hf]

/-- C8 witness: a normalized-key hit on a concrete populated state and the
NotFound answer on the empty state. -/
theorem C8_witness :
    find_entity_mapping exMariaSt "Users" = some exMapping ∧
    generate_select_query exEmptySt "ghosts"
      = Except.error (DataSourceError.NotFound
          ("No mapping found for entity " ++ "ghosts")) :=
  ⟨(C8_entity_mapping_lookup_policy exMariaSt "Users").1 exMapping rfl,
   (C8_entity_mapping_lookup_policy exEmptySt "ghosts").2.2.2 rfl⟩

/-- C9: the INSERT column list and the entity-to-query-values conversion
both iterate the mapping fields in order: the value and placeholder counts
equal the field count, the i-th value is the serialized object entry of the
i-th field name (Null when absent), and the i-th column is the i-th field
column name. -/
theorem C9_insert_positional_correspondence (st : MariaDbDatasource)
    (ename : String) (mapping : TableMapping) (m : List (String × Value))
    (hfind : find_entity_mapping st ename = some mapping) :
    entity_to_query_values st (Value.obj m) ename
      = Except.ok (mapping.fields.map
          (fun field => (mapLookup m field.field_name).getD Value.null)) ∧
    (mapping.fields.map
      (fun field => (mapLookup m field.field_name).getD Value.null)).length
        = mapping.fields.length ∧
    (insert_columns mapping).length = mapping.fields.length ∧
    (insert_placeholders mapping).length = mapping.fields.length ∧
    generate_insert_query st ename
      = Except.ok ("INSERT INTO `" ++ mapping.table_name ++ "` (" ++
          joinSep (", ") (insert_columns mapping) ++ ") VALUES (" ++
          joinSep (", ") (insert_placeholders mapping) ++ ")") ∧
    (∀ i, (mapping.fields.map
        (fun field => (mapLookup m field.field_name).getD Value.null)).get? i
      = (mapping.fields.get? i).map
          (fun field => (mapLookup m field.field_name).getD Value.null)) ∧
    (∀ i, (insert_columns mapping).get? i
      = (mapping.fields.get? i).map
          (fun field => "`" ++ field.column_name ++ "`")) := by
  refine ⟨?_, ?_, ?_, ?_, ?_, ?_, ?_⟩
  · simp [entity_to_query_values, hfind]
  · simp
  · simp [insert_columns]
  · simp [insert_placeholders]
  · simp [generate_insert_query, hfind]
  · intro i
    simp [List.get?_eq_getElem?, List.getElem?_map]
  · intro i
    simp [insert_columns, List.get?_eq_getElem?, List.getElem?_map]

/-- C9 witness: the conversion at a concrete two-field mapping with the
second field missing from the serialized object. -/
theorem C9_witness :
    entity_to_query_values exC9St (Value.obj exC9Obj) "users"
      = Except.ok [Value.str "1", Value.null] :=
  ((C9_insert_positional_correspondence exC9St "users" exC9Mapping
      exC9Obj rfl).1).trans rfl

end Rawst
